import Mathlib

/-!
Verification of the excuse-email backend (`src/excuse-gen-app/src/app.py`).

The development shallowly embeds the one piece of logic of the app — the
`call_databricks_llm` inference-call/normalization function and the
`generate_excuse` endpoint handler — as executable Lean functions over a
`Json` value type that models Python values decoded from JSON.  Python
dynamic-typing failures (TypeError, KeyError, AttributeError, pydantic
validation errors, json decode errors) are modelled with an explicit
exception type and `Except`.  Exception message *texts* follow CPython's
wording but are schematic where the exact text is library- and
version-dependent (quotes around type names are omitted); no theorem below
depends on those texts beyond non-emptiness.
-/

namespace ExcuseApp

/-- Python values reachable by decoding JSON (`json.loads` output): `None`,
booleans, ints, floats (exact rationals; also the non-finite floats that
Python's json module accepts via the `NaN`/`Infinity`/`-Infinity` literals),
strings, lists and string-keyed dicts. -/
inductive Json where
  | null
  | bool (b : Bool)
  | int (n : Int)
  | float (q : ℚ)
  | nan
  | inf
  | ninf
  | str (s : String)
  | arr (elems : List Json)
  | obj (fields : List (String × Json))

/-- Modelled Python exceptions raised by the embedded code paths. -/
inductive PyExc where
  | httpExc (status : Nat) (detail : String)
  | typeError (msg : String)
  | keyError (key : String)
  | indexError (msg : String)
  | jsonDecodeError (msg : String)
  | attributeError (msg : String)
  | validationError (msg : String)

/-- `str(e)` of a modelled exception.  For starlette's `HTTPException` this is
`f"\x7bstatus_code\x7d: \x7bdetail\x7d"`; for the others it is the message. -/
def strExc : PyExc → String
  | .httpExc status detail => toString status ++ ": " ++ detail
  | .typeError msg => msg
  | .keyError key => key
  | .indexError msg => msg
  | .jsonDecodeError msg => msg
  | .attributeError msg => msg
  | .validationError msg => msg

/-- The apostrophe character (used when rendering Python `repr` of strings). -/
def sqChar : Char := Char.ofNat 39

/-- The opening-brace character. -/
def lbrace : Char := Char.ofNat 123

/-- The closing-brace character. -/
def rbrace : Char := Char.ofNat 125

/-- `type(v).__name__` for the modelled values. -/
def pyTypeName : Json → String
  | .null => "NoneType"
  | .bool _ => "bool"
  | .int _ => "int"
  | .float _ => "float"
  | .nan => "float"
  | .inf => "float"
  | .ninf => "float"
  | .str _ => "str"
  | .arr _ => "list"
  | .obj _ => "dict"

/-- Python truthiness of a decoded value. -/
def truthy : Json → Bool
  | .null => false
  | .bool b => b
  | .int n => decide (n ≠ 0)
  | .float q => decide (q ≠ 0)
  | .nan => true
  | .inf => true
  | .ninf => true
  | .str s => decide (s ≠ "")
  | .arr xs => !xs.isEmpty
  | .obj kvs => !kvs.isEmpty

/-- Python `==` comparison of a decoded value against a string: only strings
compare equal to strings. -/
def beqStr : Json → String → Bool
  | .str s, t => s == t
  | _, _ => false

/-- Dict lookup.  Later entries shadow earlier ones, matching the fact that a
Python dict built from a JSON object keeps the last value for a duplicated
key; lists produced by the parser below have no duplicate keys. -/
def dictGet : List (String × Json) → String → Option Json
  | [], _ => none
  | (k, v) :: rest, key =>
    match dictGet rest key with
    | some r => some r
    | none => if k = key then some v else none

/-- Substring test on character lists (Python `needle in haystack` for `str`). -/
def hasSubstr (pat : List Char) : List Char → Bool
  | [] => pat.isEmpty
  | c :: t => if pat.isPrefixOf (c :: t) then true else hasSubstr pat t

/-- Python `key in v` for a string key: key membership for dicts, element
equality for lists, substring test for strings; `TypeError` otherwise. -/
def pyContains (v : Json) (key : String) : Except PyExc Bool :=
  match v with
  | .obj kvs => .ok (dictGet kvs key).isSome
  | .arr xs => .ok (xs.any (fun x => beqStr x key))
  | .str s => .ok (hasSubstr key.data s.data)
  | other => .error (.typeError ("argument of type " ++ pyTypeName other ++ " is not iterable"))

/-- Python `len(v)`. -/
def pyLen (v : Json) : Except PyExc Nat :=
  match v with
  | .str s => .ok s.length
  | .arr xs => .ok xs.length
  | .obj kvs => .ok kvs.length
  | other => .error (.typeError ("object of type " ++ pyTypeName other ++ " has no len"))

/-- Python `v[key]` for a string key. -/
def pyIndexKey (v : Json) (key : String) : Except PyExc Json :=
  match v with
  | .obj kvs =>
    match dictGet kvs key with
    | some r => .ok r
    | none => .error (.keyError key)
  | .str _ => .error (.typeError "string indices must be integers")
  | .arr _ => .error (.typeError "list indices must be integers or slices, not str")
  | other => .error (.typeError (pyTypeName other ++ " object is not subscriptable"))

/-- Python `v[i]` for a nonnegative integer index. -/
def pyIndexNat (v : Json) (i : Nat) : Except PyExc Json :=
  match v with
  | .arr xs =>
    match xs.get? i with
    | some x => .ok x
    | none => .error (.indexError "list index out of range")
  | .str s =>
    match s.data.get? i with
    | some c => .ok (.str (String.singleton c))
    | none => .error (.indexError "string index out of range")
  | .obj _ => .error (.keyError (toString i))
  | other => .error (.typeError (pyTypeName other ++ " object is not subscriptable"))

/-- Lower-case hex digit. -/
def hexDigit (n : Nat) : Char :=
  if n < 10 then Char.ofNat (48 + n) else Char.ofNat (87 + n)

/-- Escaping of one character inside Python `repr` of a string, for the chosen
quote character. -/
def escPyChar (quote : Char) (c : Char) : List Char :=
  if c = '\\' then ['\\', '\\']
  else if c = quote then ['\\', quote]
  else if c = '\n' then ['\\', 'n']
  else if c = '\r' then ['\\', 'r']
  else if c = '\t' then ['\\', 't']
  else if c.toNat < 32 then ['\\', 'x', hexDigit (c.toNat / 16), hexDigit (c.toNat % 16)]
  else [c]

/-- Python `repr` of a string: single-quoted, switching to double quotes when
the string contains a single quote but no double quote. -/
def pyReprStr (s : String) : String :=
  let hasSq := s.data.contains sqChar
  let hasDq := s.data.contains '"'
  let q := if hasSq && !hasDq then '"' else sqChar
  ⟨[q] ++ (s.data.map (escPyChar q)).flatten ++ [q]⟩

/-- Decimal digits of a fraction `r / d`, up to the given fuel (schematic
rendering of float literals; unreachable from any claim below). -/
def fracDigits : Nat → Nat → Nat → String
  | 0, _, _ => ""
  | _ + 1, 0, _ => ""
  | f + 1, r, d => toString (r * 10 / d) ++ fracDigits f (r * 10 % d) d

/-- Schematic decimal rendering of a float value. -/
def floatRepr (q : ℚ) : String :=
  let sign := if q < 0 then "-" else ""
  let n := q.num.natAbs
  let d := q.den
  if n % d = 0 then sign ++ toString (n / d) ++ ".0"
  else sign ++ toString (n / d) ++ "." ++ fracDigits 17 (n % d) d

mutual

/-- Python `repr` of a decoded value. -/
def pyRepr : Json → String
  | .null => "None"
  | .bool true => "True"
  | .bool false => "False"
  | .int n => toString n
  | .float q => floatRepr q
  | .nan => "nan"
  | .inf => "inf"
  | .ninf => "-inf"
  | .str s => pyReprStr s
  | .arr xs => "[" ++ pyReprElems xs ++ "]"
  | .obj kvs => String.singleton lbrace ++ pyReprFields kvs ++ String.singleton rbrace

/-- Comma-separated `repr`s of list elements. -/
def pyReprElems : List Json → String
  | [] => ""
  | [x] => pyRepr x
  | x :: y :: xs => pyRepr x ++ ", " ++ pyReprElems (y :: xs)

/-- Comma-separated `repr`s of dict entries. -/
def pyReprFields : List (String × Json) → String
  | [] => ""
  | [kv] => pyReprStr kv.1 ++ ": " ++ pyRepr kv.2
  | kv :: kv2 :: rest => pyReprStr kv.1 ++ ": " ++ pyRepr kv.2 ++ ", " ++ pyReprFields (kv2 :: rest)

end

/-- Python `str(v)` of a decoded value: the string itself for strings, `repr`
otherwise. -/
def pyStr (j : Json) : String :=
  match j with
  | .str s => s
  | other => pyRepr other

/-- JSON whitespace accepted by Python's `json.loads`. -/
def isJsonWs (c : Char) : Bool :=
  c = ' ' || c = '\t' || c = '\n' || c = '\r'

/-- Drop leading JSON whitespace. -/
def skipWs (cs : List Char) : List Char := cs.dropWhile isJsonWs

/-- Hex value of a character, if any. -/
def hexVal (c : Char) : Option Nat :=
  if '0' ≤ c ∧ c ≤ '9' then some (c.toNat - 48)
  else if 'a' ≤ c ∧ c ≤ 'f' then some (c.toNat - 87)
  else if 'A' ≤ c ∧ c ≤ 'F' then some (c.toNat - 55)
  else none

/-- JSON short escapes. -/
def escChar (c : Char) : Option Char :=
  if c = '"' then some '"'
  else if c = '\\' then some '\\'
  else if c = '/' then some '/'
  else if c = 'b' then some (Char.ofNat 8)
  else if c = 'f' then some (Char.ofNat 12)
  else if c = 'n' then some '\n'
  else if c = 'r' then some '\r'
  else if c = 't' then some '\t'
  else none

/-- Body of a JSON string after the opening quote: returns the decoded
characters and the remaining input after the closing quote.  Unescaped
control characters are rejected, as in Python's strict mode. -/
def parseStrBody : List Char → Option (List Char × List Char)
  | [] => none
  | c :: cs =>
    if c = '"' then some ([], cs)
    else if c = '\\' then
      match cs with
      | [] => none
      | e :: cs2 =>
        if e = 'u' then
          match cs2 with
          | a :: b :: c3 :: d :: cs3 =>
            match hexVal a, hexVal b, hexVal c3, hexVal d with
            | some x1, some x2, some x3, some x4 =>
              match parseStrBody cs3 with
              | some (body, rest) =>
                some (Char.ofNat (((x1 * 16 + x2) * 16 + x3) * 16 + x4) :: body, rest)
              | none => none
            | _, _, _, _ => none
          | _ => none
        else
          match escChar e with
          | some ec =>
            match parseStrBody cs2 with
            | some (body, rest) => some (ec :: body, rest)
            | none => none
          | none => none
    else if c.toNat < 32 then none
    else
      match parseStrBody cs with
      | some (body, rest) => some (c :: body, rest)
      | none => none

/-- Numeric value of a digit string. -/
def digitsToNat (ds : List Char) : Nat :=
  ds.foldl (fun a c => a * 10 + (c.toNat - 48)) 0

/-- Build the JSON number from its parsed parts: an int when there is neither
a fraction nor an exponent, an exact-rational float otherwise. -/
def mkNumber (neg : Bool) (ip fp : List Char) (expVal : Int) : Json :=
  if fp.isEmpty ∧ expVal = 0 then
    let n : Int := Int.ofNat (digitsToNat ip)
    .int (if neg then -n else n)
  else
    let m : Nat := digitsToNat (ip ++ fp)
    let e : Int := expVal - Int.ofNat fp.length
    let q : ℚ :=
      if 0 ≤ e then ((m * 10 ^ e.toNat : Nat) : ℚ)
      else mkRat (Int.ofNat m) (10 ^ (-e).toNat)
    .float (if neg then -q else q)

/-- Parse the exponent part (if any) and finish the number. -/
def parseNumExp (neg : Bool) (ip fp : List Char) (cs : List Char) :
    Option (Json × List Char) :=
  match cs with
  | c :: cs1 =>
    if c = 'e' ∨ c = 'E' then
      let (eneg, cs2) :=
        match cs1 with
        | s :: t => if s = '+' then (false, t) else if s = '-' then (true, t) else (false, cs1)
        | [] => (false, cs1)
      let (ed, cs3) := cs2.span Char.isDigit
      if ed.isEmpty then none
      else
        let ev : Int := Int.ofNat (digitsToNat ed)
        some (mkNumber neg ip fp (if eneg then -ev else ev), cs3)
    else some (mkNumber neg ip fp 0, cs)
  | [] => some (mkNumber neg ip fp 0, [])

/-- Parse a JSON number (Python's regex `-?(0|[1-9]\d*)(\.\d+)?([eE][-+]?\d+)?`,
with no match yielding a decode error). -/
def parseNumber (cs : List Char) : Option (Json × List Char) :=
  let (neg, cs1) :=
    match cs with
    | c :: t => if c = '-' then (true, t) else (false, cs)
    | [] => (false, cs)
  let (ip, cs2) := cs1.span Char.isDigit
  if ip.isEmpty then none
  else if ip.length > 1 ∧ ip.headD '0' = '0' then none
  else
    match cs2 with
    | c :: cs3 =>
      if c = '.' then
        let (fp, cs4) := cs3.span Char.isDigit
        if fp.isEmpty then none else parseNumExp neg ip fp cs4
      else parseNumExp neg ip [] cs2
    | [] => parseNumExp neg ip [] cs2

/-- The three mutually recursive JSON parsers (value, array items, object
members), bundled as a triple built by structural recursion on fuel so that
every recursive call strictly decreases the fuel and the definitions reduce
in the kernel.  Array-item and object-member parsers expect their input to
start at the first non-whitespace character of an element or key. -/
def parsers (fuel : Nat) :
    (List Char → Option (Json × List Char))
      × (List Char → Option (List Json × List Char))
      × (List Char → Option (List (String × Json) × List Char)) :=
  match fuel with
  | 0 => (fun _ => none, fun _ => none, fun _ => none)
  | f + 1 =>
    let pv := (parsers f).1
    let pe := (parsers f).2.1
    let pm := (parsers f).2.2
    ( fun cs =>
        match cs with
        | [] => none
        | c :: rest =>
          if c = '"' then
            match parseStrBody rest with
            | some (body, r) => some (.str ⟨body⟩, r)
            | none => none
          else if c = lbrace then
            match skipWs rest with
            | c1 :: r1 => if c1 = rbrace then some (.obj [], r1) else
                match pm (c1 :: r1) with
                | some (ms, r) => some (.obj ms, r)
                | none => none
            | [] => none
          else if c = '[' then
            match skipWs rest with
            | c1 :: r1 => if c1 = ']' then some (.arr [], r1) else
                match pe (c1 :: r1) with
                | some (xs, r) => some (.arr xs, r)
                | none => none
            | [] => none
          else if "null".data.isPrefixOf cs then some (.null, cs.drop 4)
          else if "true".data.isPrefixOf cs then some (.bool true, cs.drop 4)
          else if "false".data.isPrefixOf cs then some (.bool false, cs.drop 5)
          else if "NaN".data.isPrefixOf cs then some (.nan, cs.drop 3)
          else if "Infinity".data.isPrefixOf cs then some (.inf, cs.drop 8)
          else if c = '-' && "Infinity".data.isPrefixOf rest then some (.ninf, cs.drop 9)
          else if c = '-' || c.isDigit then parseNumber cs
          else none,
      fun cs =>
        match pv cs with
        | some (v, r) =>
          match skipWs r with
          | c :: r2 =>
            if c = ',' then
              match pe (skipWs r2) with
              | some (vs, r3) => some (v :: vs, r3)
              | none => none
            else if c = ']' then some ([v], r2)
            else none
          | [] => none
        | none => none,
      fun cs =>
        match cs with
        | c :: rest =>
          if c = '"' then
            match parseStrBody rest with
            | some (k, cs1) =>
              match skipWs cs1 with
              | c2 :: cs2 =>
                if c2 = ':' then
                  match pv (skipWs cs2) with
                  | some (v, cs3) =>
                    match skipWs cs3 with
                    | c4 :: cs4 =>
                      if c4 = ',' then
                        match pm (skipWs cs4) with
                        | some (ms, cs5) => some ((⟨k⟩, v) :: ms, cs5)
                        | none => none
                      else if c4 = rbrace then some ([(⟨k⟩, v)], cs4)
                      else none
                    | [] => none
                  | none => none
                else none
              | [] => none
            | none => none
          else none
        | [] => none )

/-- Model of `json.loads` on a string: parse one JSON value, allowing only
whitespace around it.  The fuel bound is generous: the parsers consume at
least one character every two fuel steps. -/
def jsonParse (s : String) : Option Json :=
  match (parsers (2 * s.length + 8)).1 (skipWs s.data) with
  | some (j, r) => if (skipWs r).isEmpty then some j else none
  | none => none

/-- The validated request body of `POST /api/generate-excuse` (pydantic model
`ExcuseRequest` in `app.py`). -/
structure ExcuseRequest where
  category : String
  tone : String
  seriousness : Int
  recipient_name : String
  sender_name : String
  eta_when : String

/-- The field validation `1 <= seriousness <= 5` declared on the request model. -/
def ExcuseRequest.valid (r : ExcuseRequest) : Prop :=
  1 ≤ r.seriousness ∧ r.seriousness ≤ 5

/-- The response envelope (pydantic model `ExcuseResponse` in `app.py`). -/
structure ExcuseResponse where
  subject : String
  body : String
  success : Bool
  error : Option String

/-- `HTTPException` as raised by the handlers (status code plus detail). -/
structure HTTPException where
  status_code : Nat
  detail : String

/-- Outcome of the endpoint: a normal HTTP-200 reply carrying the envelope, or
an HTTP-level error produced from an uncaught `HTTPException`. -/
inductive EndpointResult where
  | ok (resp : ExcuseResponse)
  | httpError (status : Nat) (detail : String)

/-- Outcome of the single outbound `httpx` POST, abstracted as an oracle: the
call timed out (`httpx.TimeoutException`), failed in transport
(`httpx.RequestError`, carrying `str(e)`), or produced a response with a
status code and a body text. -/
inductive UpstreamResult where
  | timeout
  | requestError (msg : String)
  | response (status : Nat) (text : String)

/-- `not DATABRICKS_API_TOKEN`: the credential is absent or the empty string. -/
def tokenFalsy : Option String → Bool
  | none => true
  | some s => s == ""

/-- The fixed `httpx.AsyncClient(timeout=30.0)` bound, in seconds. -/
def httpTimeoutSeconds : Nat := 30

/-- Python-accurate test for the loop body
`isinstance(item, dict) and item.get("type") == "text"`. -/
def isTextItem (item : Json) : Bool :=
  match item with
  | .obj kvs =>
    match dictGet kvs "type" with
    | some (.str t) => t == "text"
    | _ => false
  | _ => false

/-- `item.get("text", "")` for a matching item. -/
def textOf (item : Json) : Json :=
  match item with
  | .obj kvs => (dictGet kvs "text").getD (.str "")
  | _ => .str ""

/-- Lines 173-182 of `app.py`: when the message content is a list, scan for
the first item tagged `type == "text"` and use its text if truthy, falling
back to `str(message_content)`; non-list content is used as-is. -/
def resolveMessageContent (mc : Json) : Json :=
  match mc with
  | .arr items =>
    match items.find? isTextItem with
    | some item => if truthy (textOf item) then textOf item else .str (pyStr mc)
    | none => .str (pyStr mc)
  | _ => mc

/-- The shape test `key in result and len(result[key]) > 0` with Python
evaluation order and short-circuiting. -/
def condMember (result : Json) (key : String) : Except PyExc Bool :=
  match pyContains result key with
  | .error e => .error e
  | .ok false => .ok false
  | .ok true =>
    match pyIndexKey result key with
    | .error e => .error e
    | .ok v =>
      match pyLen v with
      | .error e => .error e
      | .ok n => .ok (decide (0 < n))

/-- The chat branch `result["choices"][0]["message"]["content"]` followed by
the content-format handling. -/
def chatExtract (result : Json) : Except PyExc Json :=
  match pyIndexKey result "choices" with
  | .error e => .error e
  | .ok cs =>
    match pyIndexNat cs 0 with
    | .error e => .error e
    | .ok c0 =>
      match pyIndexKey c0 "message" with
      | .error e => .error e
      | .ok m =>
        match pyIndexKey m "content" with
        | .error e => .error e
        | .ok mc => .ok (resolveMessageContent mc)

/-- The legacy branch `result["predictions"][0]`. -/
def predExtract (result : Json) : Except PyExc Json :=
  match pyIndexKey result "predictions" with
  | .error e => .error e
  | .ok ps => pyIndexNat ps 0

/-- Lines 169-187 of `app.py`: resolve the decoded reply body into the
extracted content, trying the chat-choices shape, then the legacy
predictions shape, then `str(result)`. -/
def extractContent (result : Json) : Except PyExc Json :=
  match condMember result "choices" with
  | .error e => .error e
  | .ok true => chatExtract result
  | .ok false =>
    match condMember result "predictions" with
    | .error e => .error e
    | .ok true => predExtract result
    | .ok false => .ok (.str (pyStr result))

/-- Whitespace stripped by Python's `str.strip()` (ASCII fragment). -/
def isPySpace (c : Char) : Bool :=
  c = ' ' || c = '\t' || c = '\n' || c = '\r' || c = Char.ofNat 11 || c = Char.ofNat 12

/-- `content.strip()`. -/
def pyStrip (s : String) : String :=
  ⟨((s.data.dropWhile isPySpace).reverse.dropWhile isPySpace).reverse⟩

/-- Python `s.split("\n")` on character lists: always at least one piece. -/
def splitLines : List Char → List (List Char)
  | [] => [[]]
  | c :: cs =>
    if c = '\n' then [] :: splitLines cs
    else
      match splitLines cs with
      | [] => [[c]]
      | l :: ls => (c :: l) :: ls

/-- `s.split("\n")` as strings. -/
def pySplitNl (s : String) : List String :=
  (splitLines s.data).map (fun l => ⟨l⟩)

/-- The lines of the stripped content, `content.strip().split("\n")`. -/
def linesOf (s : String) : List String := pySplitNl (pyStrip s)

/-- The greeting/sign-off wrapper of the fallback body (line 201). -/
def wrapBody (req : ExcuseRequest) (inner : String) : String :=
  "Dear " ++ req.recipient_name ++ ",\n\n" ++ inner ++ "\n\nBest regards,\n" ++ req.sender_name

/-- Lines 189-202 of `app.py`: `json.loads(content)` when the content is a
string, returning the parsed value as-is on success and the heuristic
line-split mapping on `JSONDecodeError`; `json.loads` of a non-string raises
`TypeError`. -/
def contentToResult (req : ExcuseRequest) (content : Json) : Except PyExc Json :=
  match content with
  | .str s =>
    match jsonParse s with
    | some j => .ok j
    | none =>
      let lines := linesOf s
      let subject := if lines.isEmpty then "Re: " ++ req.category else lines.headD ""
      let body := if lines.length > 1 then String.intercalate "\n" lines.tail else s
      .ok (.obj [("subject", .str subject), ("body", .str (wrapBody req body))])
  | other =>
    .error (.typeError ("the JSON object must be str, bytes or bytearray, not "
      ++ pyTypeName other))

/-- The response normalizer (spec section 4.3, lines 169-202): extraction of
the content followed by the parse-or-fallback step. -/
def normalizeReply (req : ExcuseRequest) (body : Json) : Except PyExc Json :=
  match extractContent body with
  | .error e => .error e
  | .ok c => contentToResult req c

/-- The body of the `try` block of `call_databricks_llm` once a response has
arrived (lines 160-202): non-200 statuses raise an `HTTPException` (modelled
as `PyExc.httpExc` because it is raised inside the `try` and so is caught by
the function's own `except Exception` handler), then `response.json()`, then
normalization. -/
def llmBody (req : ExcuseRequest) (status : Nat) (text : String) : Except PyExc Json :=
  if status ≠ 200 then
    .error (.httpExc 500 ("Databricks API error: " ++ toString status ++ " - " ++ text))
  else
    match jsonParse text with
    | none => .error (.jsonDecodeError "Expecting value")
    | some body => normalizeReply req body

/-- `call_databricks_llm` (lines 97-210): the missing-credential check (raised
outside the `try`, hence never wrapped), then the outbound call with its
three `except` clauses.  `httpx.TimeoutException` maps to 504,
`httpx.RequestError` to 500, and any other exception — including the
non-200 `HTTPException` raised inside the `try` — is wrapped into
`HTTPException(500, "Unexpected error: " + str(e))`. -/
def call_databricks_llm (token : Option String) (up : UpstreamResult)
    (req : ExcuseRequest) : Except HTTPException Json :=
  if tokenFalsy token then
    .error ⟨500, "Databricks API token not configured"⟩
  else
    match up with
    | .timeout => .error ⟨504, "Request timeout to Databricks API"⟩
    | .requestError msg => .error ⟨500, "Request error: " ++ msg⟩
    | .response status text =>
      match llmBody req status text with
      | .ok j => .ok j
      | .error e => .error ⟨500, "Unexpected error: " ++ strExc e⟩

/-- Schematic rendering of a pydantic `ValidationError` message for the named
invalid fields (the precise library text is irrelevant to every claim; only
non-emptiness matters). -/
def pydanticMsg (fields : List String) : String :=
  toString fields.length ++ " validation error for ExcuseResponse: "
    ++ String.intercalate ", " (fields.map (fun f => f ++ " Input should be a valid string"))

/-- Lines 221-226 of `generate_excuse`: `result.get("subject", ...)`,
`result.get("body", ...)` and the `ExcuseResponse` construction.  A
non-dict result raises `AttributeError` on `.get`; a present non-string
subject/body fails pydantic validation of the string fields. -/
def buildEnvelope (req : ExcuseRequest) (result : Json) : Except PyExc ExcuseResponse :=
  match result with
  | .obj kvs =>
    match (dictGet kvs "subject").getD (.str ("Re: " ++ req.category)),
        (dictGet kvs "body").getD (.str "Email content could not be generated.") with
    | .str s, .str b => .ok ⟨s, b, true, none⟩
    | .str _, _ => .error (.validationError (pydanticMsg ["body"]))
    | _, .str _ => .error (.validationError (pydanticMsg ["subject"]))
    | _, _ => .error (.validationError (pydanticMsg ["subject", "body"]))
  | other =>
    .error (.attributeError (pyTypeName other ++ " object has no attribute get"))

/-- The fixed error envelope of the `except Exception` handler of
`generate_excuse` (lines 230-237). -/
def errorEnvelope (e : PyExc) : ExcuseResponse :=
  ⟨"Error", "Sorry, there was an error generating your email. Please try again.",
    false, some (strExc e)⟩

/-- The `POST /api/generate-excuse` handler `generate_excuse` (lines 212-237):
`HTTPException`s from the call are re-raised (HTTP-level failure), every
other exception after the call completes is converted into the
`success=false` envelope returned with HTTP 200. -/
def generate_excuse (token : Option String) (up : UpstreamResult)
    (req : ExcuseRequest) : EndpointResult :=
  match call_databricks_llm token up req with
  | .error e => .httpError e.status_code e.detail
  | .ok result =>
    match buildEnvelope req result with
    | .ok resp => .ok resp
    | .error e => .ok (errorEnvelope e)

/-- Whether a value is a mapping containing both a `subject` and a `body` key. -/
def hasSubjectBodyKeys : Json → Bool
  | .obj kvs => (dictGet kvs "subject").isSome && (dictGet kvs "body").isSome
  | _ => false

/-- The subject the envelope construction produces from a parsed mapping. -/
def envSubject (req : ExcuseRequest) (kvs : List (String × Json)) : String :=
  match dictGet kvs "subject" with
  | some (.str a) => a
  | _ => "Re: " ++ req.category

/-- The body the envelope construction produces from a parsed mapping. -/
def envBody (kvs : List (String × Json)) : String :=
  match dictGet kvs "body" with
  | some (.str b) => b
  | _ => "Email content could not be generated."

/-- A concrete well-formed request used by witnesses and counterexamples. -/
def req0 : ExcuseRequest :=
  ⟨"meeting", "apologetic", 3, "Bob", "Alice", "tomorrow"⟩

/-- The wrapped detail string the endpoint reports for an upstream non-200
reply (the inner `HTTPException` is stringified by the function's own
`except Exception` handler). -/
def upstreamErrDetail (status : Nat) (text : String) : String :=
  "Unexpected error: " ++ ("500" ++ ": "
    ++ ("Databricks API error: " ++ toString status ++ " - " ++ text))

theorem splitLines_ne_nil (cs : List Char) : splitLines cs ≠ [] := by
  cases cs with
  | nil => simp [splitLines]
  | cons c t =>
    unfold splitLines
    by_cases h : c = '\n'
    · simp [h]
    · simp only [h, if_false]
      cases splitLines t <;> simp

theorem linesOf_not_isEmpty (s : String) : (linesOf s).isEmpty = false := by
  unfold linesOf pySplitNl
  cases h : splitLines (pyStrip s).data with
  | nil => exact absurd h (splitLines_ne_nil _)
  | cons l ls => simp

theorem call_databricks_llm_response_ok {token : Option String} {text : String}
    {body r : Json} {req : ExcuseRequest}
    (h0 : tokenFalsy token = false) (h1 : jsonParse text = some body)
    (h2 : normalizeReply req body = .ok r) :
    call_databricks_llm token (.response 200 text) req = .ok r := by
  unfold call_databricks_llm llmBody
  simp [h0, h1, h2]

/-- Claim C4 (confirmed): with the inference credential absent (or empty,
which is equally falsy in Python), the generation endpoint fails with HTTP
500 and the configuration-error message, for every request and regardless of
what the outbound call would have produced (hence without depending on it). -/
theorem c4_missing_token_500 (token : Option String) (up : UpstreamResult)
    (req : ExcuseRequest) (h : tokenFalsy token = true) :
    generate_excuse token up req =
      .httpError 500 "Databricks API token not configured" := by
  unfold generate_excuse call_databricks_llm
  simp [h]

theorem c4_witness :
    generate_excuse none .timeout req0 =
      .httpError 500 "Databricks API token not configured" :=
  c4_missing_token_500 none .timeout req0 rfl

/-- Claim C5 (confirmed): with the credential configured, an upstream timeout
makes the endpoint fail with HTTP 504 (and the timeout-specific message),
while a generic transport error yields HTTP 500 — the two failure kinds are
signalled distinctly — and the outbound call uses the fixed 30-second
timeout constant. -/
theorem c5_timeout_504 (token : Option String) (req : ExcuseRequest)
    (h : tokenFalsy token = false) :
    generate_excuse token .timeout req =
        .httpError 504 "Request timeout to Databricks API"
      ∧ (∀ msg, generate_excuse token (.requestError msg) req =
          .httpError 500 ("Request error: " ++ msg))
      ∧ httpTimeoutSeconds = 30 := by
  refine ⟨?_, fun msg => ?_, rfl⟩ <;>
    · unfold generate_excuse call_databricks_llm
      simp [h]

theorem c5_witness :
    generate_excuse (some "t") UpstreamResult.timeout req0 =
      .httpError 504 "Request timeout to Databricks API" :=
  (c5_timeout_504 (some "t") req0 rfl).1

/-- Claim C6 (confirmed): an upstream non-200 reply makes the endpoint fail
with HTTP 500 and a detail string containing both the upstream status code
and the upstream body text.  (The detail is additionally wrapped in
`"Unexpected error: 500: "` because the non-200 `HTTPException` raised inside
the `try` block is caught and re-wrapped by the function's own
`except Exception` handler; the claim's containment property still holds.) -/
theorem c6_upstream_non200 (token : Option String) (req : ExcuseRequest)
    (status : Nat) (text : String)
    (h0 : tokenFalsy token = false) (h1 : status ≠ 200) :
    generate_excuse token (.response status text) req =
        .httpError 500 (upstreamErrDetail status text)
      ∧ (∃ pre post, upstreamErrDetail status text = pre ++ toString status ++ post)
      ∧ (∃ pre, upstreamErrDetail status text = pre ++ text) := by
  refine ⟨?_, ?_, ?_⟩
  · unfold generate_excuse call_databricks_llm llmBody
    simp only [h0, Bool.false_eq_true, if_false]
    rw [if_pos h1]
    rfl
  · exact ⟨"Unexpected error: " ++ ("500" ++ (": " ++ "Databricks API error: ")),
      " - " ++ text, by simp only [upstreamErrDetail, String.append_assoc]⟩
  · exact ⟨"Unexpected error: " ++ ("500" ++ (": "
      ++ ("Databricks API error: " ++ (toString status ++ " - ")))),
      by simp only [upstreamErrDetail, String.append_assoc]⟩

theorem c6_witness :
    generate_excuse (some "t") (.response 500 "Internal Server Error") req0 =
        .httpError 500 (upstreamErrDetail 500 "Internal Server Error")
      ∧ (∃ pre post, upstreamErrDetail 500 "Internal Server Error" =
          pre ++ toString 500 ++ post)
      ∧ (∃ pre, upstreamErrDetail 500 "Internal Server Error" =
          pre ++ "Internal Server Error") :=
  c6_upstream_non200 (some "t") req0 500 "Internal Server Error" rfl (by decide)

/-- Claim C7 (confirmed): whenever the inference call itself completes with a
result but anything in the envelope construction afterwards raises (e.g. the
normalizer's result is not a mapping, or a present field fails validation),
`generate_excuse` swallows the exception and answers HTTP 200 with the fixed
`success=false` envelope, whose error string is `str(e)` and non-empty. -/
theorem c7_post_call_exception_swallowed (token : Option String)
    (up : UpstreamResult) (req : ExcuseRequest) (j : Json) (e : PyExc)
    (hcall : call_databricks_llm token up req = .ok j)
    (hbuild : buildEnvelope req j = .error e) :
    generate_excuse token up req = .ok (errorEnvelope e)
      ∧ (errorEnvelope e).success = false
      ∧ (errorEnvelope e).error = some (strExc e)
      ∧ strExc e ≠ "" := by
  refine ⟨by simp [generate_excuse, hcall, hbuild], rfl, rfl, ?_⟩
  cases j
  case obj kvs =>
    simp only [buildEnvelope] at hbuild
    split at hbuild
    · exact absurd hbuild (by simp)
    · simp only [Except.error.injEq] at hbuild; rw [← hbuild]; decide
    · simp only [Except.error.injEq] at hbuild; rw [← hbuild]; decide
    · simp only [Except.error.injEq] at hbuild; rw [← hbuild]; decide
  all_goals
    (simp only [buildEnvelope, Except.error.injEq] at hbuild; rw [← hbuild];
      simp only [strExc, pyTypeName]; decide)

theorem c7_witness :
    generate_excuse (some "t") (.response 200 "[1, 2]") req0 =
        .ok (errorEnvelope (.attributeError "list object has no attribute get"))
      ∧ (errorEnvelope (.attributeError "list object has no attribute get")).success
          = false
      ∧ (errorEnvelope (.attributeError "list object has no attribute get")).error
          = some (strExc (.attributeError "list object has no attribute get"))
      ∧ strExc (.attributeError "list object has no attribute get") ≠ "" :=
  c7_post_call_exception_swallowed (some "t") (.response 200 "[1, 2]") req0
    (Json.arr [Json.int 1, Json.int 2])
    (.attributeError "list object has no attribute get") rfl rfl

/-- Claim C1 (corrected): on the fallback path the subject is never the
`"Re: <category>"` default — `content.strip().split("\n")` always yields at
least one (possibly empty) line, so `if lines` is always truthy and an empty
content produces an *empty* subject, not the claimed fallback. -/
theorem c1_counterexample :
    generate_excuse (some "t")
        (.response 200
          "\x7b\"choices\": [\x7b\"message\": \x7b\"content\": \"\"\x7d\x7d]\x7d")
        req0 =
      .ok ⟨"", "Dear Bob,\n\n\n\nBest regards,\nAlice", true, none⟩
    ∧ "" ≠ "Re: " ++ req0.category :=
  ⟨rfl, by decide⟩

/-- Claim C1 (amended): for a string content that does not parse as JSON, the
subject is the first line of the *stripped* content (which may be empty; the
`"Re: <category>"` branch is dead code), and the wrapped remainder is the
lines after the first joined by newlines when there are at least two lines,
and the entire original content otherwise. -/
theorem c1_amended_fallback (token : Option String) (text : String) (body : Json)
    (s : String) (req : ExcuseRequest)
    (h0 : tokenFalsy token = false) (h1 : jsonParse text = some body)
    (h2 : extractContent body = .ok (.str s)) (h3 : jsonParse s = none) :
    generate_excuse token (.response 200 text) req =
      .ok ⟨(linesOf s).headD "",
           wrapBody req (if (linesOf s).length > 1
             then String.intercalate "\n" (linesOf s).tail else s),
           true, none⟩ := by
  have hnorm : normalizeReply req body =
      .ok (.obj [("subject", .str ((linesOf s).headD "")),
        ("body", .str (wrapBody req (if (linesOf s).length > 1
          then String.intercalate "\n" (linesOf s).tail else s)))]) := by
    simp [normalizeReply, h2, contentToResult, h3, linesOf_not_isEmpty]
  have hcall := call_databricks_llm_response_ok h0 h1 hnorm
  unfold generate_excuse
  rw [hcall]
  rfl

theorem c1_witness :
    generate_excuse (some "t")
        (.response 200
          "\x7b\"choices\": [\x7b\"message\": \x7b\"content\": \"Subject line\\nRest one\\nRest two\"\x7d\x7d]\x7d")
        req0 =
      .ok ⟨(linesOf "Subject line\nRest one\nRest two").headD "",
           wrapBody req0 (if (linesOf "Subject line\nRest one\nRest two").length > 1
             then String.intercalate "\n" (linesOf "Subject line\nRest one\nRest two").tail
             else "Subject line\nRest one\nRest two"),
           true, none⟩ :=
  c1_amended_fallback (some "t") _ (Json.obj [("choices", Json.arr [Json.obj
      [("message", Json.obj [("content",
        Json.str "Subject line\nRest one\nRest two")])]])])
    "Subject line\nRest one\nRest two" req0 rfl rfl rfl rfl

/-- Claim C2 (corrected): the normalizer does *not* always return a mapping
with `subject` and `body` keys — when the extracted content parses as JSON,
the parsed value is returned unchanged, e.g. a JSON array. -/
theorem c2_counterexample :
    normalizeReply req0 (Json.obj [("choices", Json.arr [Json.obj [("message",
        Json.obj [("content", Json.str "[1, 2]")])]])]) =
      .ok (Json.arr [Json.int 1, Json.int 2])
    ∧ hasSubjectBodyKeys (Json.arr [Json.int 1, Json.int 2]) = false :=
  ⟨rfl, rfl⟩

/-- Claim C2 (amended): every value the normalizer successfully returns is
either a mapping with both `subject` and `body` keys (the non-JSON fallback
path) or the decoded JSON content verbatim — which need not be such a
mapping.  (Extraction of malformed shapes and non-string contents can
additionally raise, surfacing as HTTP 500 from the handler above.) -/
theorem c2_amended_normalizer (req : ExcuseRequest) (body r : Json)
    (h : normalizeReply req body = .ok r) :
    hasSubjectBodyKeys r = true
      ∨ ∃ s, extractContent body = .ok (.str s) ∧ jsonParse s = some r := by
  unfold normalizeReply at h
  cases hx : extractContent body with
  | error e => rw [hx] at h; exact absurd h (by simp)
  | ok c =>
    rw [hx] at h
    cases c
    case str s =>
      simp only [contentToResult] at h
      cases hp : jsonParse s with
      | some j =>
        rw [hp] at h
        simp only [Except.ok.injEq] at h
        subst h
        exact Or.inr ⟨s, rfl, hp⟩
      | none =>
        rw [hp] at h
        simp only [Except.ok.injEq] at h
        rw [← h]
        left
        rfl
    all_goals (simp [contentToResult] at h)

theorem c2_witness :
    hasSubjectBodyKeys (Json.obj [("subject", Json.str "Hello"),
        ("body", Json.str "Dear Bob,\n\nHello\n\nBest regards,\nAlice")]) = true
      ∨ ∃ s, extractContent (Json.obj [("choices", Json.arr [Json.obj [("message",
          Json.obj [("content", Json.str "Hello")])]])]) = .ok (.str s)
        ∧ jsonParse s = some (Json.obj [("subject", Json.str "Hello"),
            ("body", Json.str "Dear Bob,\n\nHello\n\nBest regards,\nAlice")]) :=
  c2_amended_normalizer req0
    (Json.obj [("choices", Json.arr [Json.obj [("message",
      Json.obj [("content", Json.str "Hello")])]])])
    (Json.obj [("subject", Json.str "Hello"),
      ("body", Json.str "Dear Bob,\n\nHello\n\nBest regards,\nAlice")])
    rfl

/-- Claim C3 (confirmed, in the stronger form where the parsed content object
may also contain further keys): a 200 upstream reply in the chat-choices
shape whose first choice's message content is a string parsing to a mapping
with string values at `subject` and `body` makes the endpoint return
`success=true`, `error=None` and exactly that subject and body. -/
theorem c3_structured_reply (token : Option String) (text : String)
    (req : ExcuseRequest) (bodyKvs : List (String × Json)) (rest : List Json)
    (c0Kvs msgKvs objKvs : List (String × Json)) (s a b : String)
    (h0 : tokenFalsy token = false)
    (h1 : jsonParse text = some (.obj bodyKvs))
    (h2 : dictGet bodyKvs "choices" = some (.arr (Json.obj c0Kvs :: rest)))
    (h3 : dictGet c0Kvs "message" = some (.obj msgKvs))
    (h4 : dictGet msgKvs "content" = some (.str s))
    (h5 : jsonParse s = some (.obj objKvs))
    (h6 : dictGet objKvs "subject" = some (.str a))
    (h7 : dictGet objKvs "body" = some (.str b)) :
    generate_excuse token (.response 200 text) req = .ok ⟨a, b, true, none⟩ := by
  have hextract : extractContent (.obj bodyKvs) = .ok (.str s) := by
    simp [extractContent, condMember, pyContains, h2, pyIndexKey, pyLen, chatExtract,
      pyIndexNat, h3, h4, resolveMessageContent]
  have hnorm : normalizeReply req (.obj bodyKvs) = .ok (.obj objKvs) := by
    simp [normalizeReply, hextract, contentToResult, h5]
  have hcall := call_databricks_llm_response_ok h0 h1 hnorm
  have hbuild : buildEnvelope req (.obj objKvs) = .ok ⟨a, b, true, none⟩ := by
    simp [buildEnvelope, h6, h7]
  unfold generate_excuse
  rw [hcall]
  simp [hbuild]

theorem c3_witness :
    generate_excuse (some "t")
        (.response 200
          "\x7b\"choices\": [\x7b\"message\": \x7b\"content\": \"\x7b\\\"subject\\\": \\\"Sick today\\\", \\\"body\\\": \\\"Dear Bob\\\"\x7d\"\x7d\x7d]\x7d")
        req0 =
      .ok ⟨"Sick today", "Dear Bob", true, none⟩ :=
  c3_structured_reply (some "t") _ req0
    [("choices", Json.arr [Json.obj [("message", Json.obj [("content",
      Json.str "\x7b\"subject\": \"Sick today\", \"body\": \"Dear Bob\"\x7d")])]])]
    [] [("message", Json.obj [("content",
      Json.str "\x7b\"subject\": \"Sick today\", \"body\": \"Dear Bob\"\x7d")])]
    [("content", Json.str "\x7b\"subject\": \"Sick today\", \"body\": \"Dear Bob\"\x7d")]
    [("subject", Json.str "Sick today"), ("body", Json.str "Dear Bob")]
    "\x7b\"subject\": \"Sick today\", \"body\": \"Dear Bob\"\x7d"
    "Sick today" "Dear Bob" rfl rfl rfl rfl rfl rfl rfl rfl

/-- A list-shaped message content whose first (and only) text-tagged item has
an empty text field. -/
def c8List : Json :=
  .arr [.obj [("type", Json.str "text"), ("text", Json.str "")]]

/-- Claim C8 (corrected): the text of the first `type == "text"` item is *not*
always used — the code falls back to the stringified list whenever that text
is falsy, e.g. the empty string, because of
`content = text_content if text_content else str(message_content)`. -/
theorem c8_counterexample :
    resolveMessageContent c8List = .str (pyStr c8List)
      ∧ pyStr c8List ≠ ""
      ∧ textOf (Json.obj [("type", Json.str "text"), ("text", Json.str "")]) =
          .str "" :=
  ⟨rfl, by decide, rfl⟩

/-- Claim C8 (amended): for list-shaped content, the text of the first item
tagged `type == "text"` is used only when it is truthy; when there is no such
item, or its text is falsy, the stringified list is used; non-list content is
used as-is. -/
theorem c8_amended_resolve (mc : Json) :
    (∀ items item, mc = .arr items → items.find? isTextItem = some item →
        truthy (textOf item) = true → resolveMessageContent mc = textOf item)
      ∧ (∀ items item, mc = .arr items → items.find? isTextItem = some item →
          truthy (textOf item) = false → resolveMessageContent mc = .str (pyStr mc))
      ∧ (∀ items, mc = .arr items → items.find? isTextItem = none →
          resolveMessageContent mc = .str (pyStr mc))
      ∧ ((∀ items, mc ≠ .arr items) → resolveMessageContent mc = mc) := by
  refine ⟨?_, ?_, ?_, ?_⟩
  · rintro items item rfl hf ht
    simp [resolveMessageContent, hf, ht]
  · rintro items item rfl hf ht
    simp [resolveMessageContent, hf, ht]
  · rintro items rfl hf
    simp [resolveMessageContent, hf]
  · intro h
    cases mc <;> first | rfl | exact absurd rfl (h _)

theorem c8_witness :
    resolveMessageContent
        (.arr [.obj [("type", Json.str "text"), ("text", Json.str "hi")]]) =
      textOf (Json.obj [("type", Json.str "text"), ("text", Json.str "hi")]) :=
  (c8_amended_resolve
      (.arr [.obj [("type", Json.str "text"), ("text", Json.str "hi")]])).1
    [.obj [("type", Json.str "text"), ("text", Json.str "hi")]]
    (.obj [("type", Json.str "text"), ("text", Json.str "hi")]) rfl rfl rfl

/-- Claim C9 (corrected): the shape resolution does *not* stringify every
unrecognized payload — for a decoded body that is not a container (here the
number 5) the Python membership test `"choices" in result` itself raises
`TypeError`, so extraction fails (surfacing as HTTP 500) instead of using
`str(result)`. -/
theorem c9_counterexample :
    extractContent (Json.int 5) =
        .error (.typeError "argument of type int is not iterable")
      ∧ (extractContent (Json.int 5)).isOk = false
      ∧ generate_excuse (some "t") (.response 200 "5") req0 =
          .httpError 500 "Unexpected error: argument of type int is not iterable" :=
  ⟨rfl, rfl, rfl⟩

/-- Claim C9 (amended): for object-shaped bodies whose `choices` and
`predictions` members, when present, are lists, the fixed resolution order
holds: a non-empty `choices` list commits to the chat extraction; otherwise a
non-empty `predictions` list yields its first element; otherwise the whole
payload is stringified.  (Bodies that are not containers, or whose members
are not of the expected shape, instead raise inside extraction.) -/
theorem c9_amended_order (kvs : List (String × Json)) :
    (∀ x xs, dictGet kvs "choices" = some (.arr (x :: xs)) →
        extractContent (.obj kvs) = chatExtract (.obj kvs))
      ∧ ((dictGet kvs "choices" = none ∨ dictGet kvs "choices" = some (.arr [])) →
          ∀ y ys, dictGet kvs "predictions" = some (.arr (y :: ys)) →
            extractContent (.obj kvs) = .ok y)
      ∧ ((dictGet kvs "choices" = none ∨ dictGet kvs "choices" = some (.arr [])) →
          (dictGet kvs "predictions" = none
            ∨ dictGet kvs "predictions" = some (.arr [])) →
          extractContent (.obj kvs) = .ok (.str (pyStr (.obj kvs)))) := by
  refine ⟨?_, ?_, ?_⟩
  · intro x xs h
    simp [extractContent, condMember, pyContains, h, pyIndexKey, pyLen]
  · rintro (h | h) y ys hp <;>
      simp [extractContent, condMember, pyContains, h, hp, pyIndexKey, pyLen,
        predExtract, pyIndexNat]
  · rintro (h | h) (hp | hp) <;>
      simp [extractContent, condMember, pyContains, h, hp, pyIndexKey, pyLen]

theorem c9_witness :
    extractContent (.obj [("foo", Json.int 1)]) =
      .ok (.str (pyStr (.obj [("foo", Json.int 1)]))) :=
  (c9_amended_order [("foo", Json.int 1)]).2.2 (Or.inl rfl) (Or.inl rfl)

/-- Claim C10 (corrected): when the parsed content mapping carries a present
but non-string value in `subject` or `body`, the envelope construction fails
pydantic validation, so the endpoint returns the `success=false` error
envelope rather than reporting success — here for content
`\x7b"subject": 5\x7d`, where the claim predicts a defaulted body and
`success=true`. -/
theorem c10_counterexample :
    generate_excuse (some "t")
        (.response 200
          "\x7b\"choices\": [\x7b\"message\": \x7b\"content\": \"\x7b\\\"subject\\\": 5\x7d\"\x7d\x7d]\x7d")
        req0 =
      .ok (errorEnvelope (.validationError (pydanticMsg ["subject"])))
    ∧ (errorEnvelope (.validationError (pydanticMsg ["subject"]))).success = false :=
  ⟨rfl, rfl⟩

/-- Claim C10 (amended): when the upstream content parses to a mapping whose
`subject`/`body` entries, where present, are strings, a missing `subject`
defaults to `"Re: <category>"`, a missing `body` defaults to
`"Email content could not be generated."`, and the endpoint reports
`success=true` with `error=None`. -/
theorem c10_amended_defaults (token : Option String) (text : String)
    (body : Json) (s : String) (req : ExcuseRequest) (kvs : List (String × Json))
    (h0 : tokenFalsy token = false) (h1 : jsonParse text = some body)
    (h2 : extractContent body = .ok (.str s))
    (h3 : jsonParse s = some (.obj kvs))
    (hs : dictGet kvs "subject" = none
      ∨ ∃ a, dictGet kvs "subject" = some (.str a))
    (hb : dictGet kvs "body" = none
      ∨ ∃ b, dictGet kvs "body" = some (.str b)) :
    generate_excuse token (.response 200 text) req =
      .ok ⟨envSubject req kvs, envBody kvs, true, none⟩ := by
  have hnorm : normalizeReply req body = .ok (.obj kvs) := by
    simp [normalizeReply, h2, contentToResult, h3]
  have hcall := call_databricks_llm_response_ok h0 h1 hnorm
  have hbuild : buildEnvelope req (.obj kvs) =
      .ok ⟨envSubject req kvs, envBody kvs, true, none⟩ := by
    rcases hs with hs | ⟨a, hs⟩ <;> rcases hb with hb | ⟨b, hb⟩ <;>
      simp [buildEnvelope, envSubject, envBody, hs, hb]
  unfold generate_excuse
  rw [hcall]
  simp [hbuild]

theorem c10_witness :
    generate_excuse (some "t")
        (.response 200
          "\x7b\"choices\": [\x7b\"message\": \x7b\"content\": \"\x7b\x7d\"\x7d\x7d]\x7d")
        req0 =
      .ok ⟨envSubject req0 [], envBody [], true, none⟩ :=
  c10_amended_defaults (some "t") _ (Json.obj [("choices", Json.arr [Json.obj
      [("message", Json.obj [("content", Json.str "\x7b\x7d")])]])])
    "\x7b\x7d" req0 [] rfl rfl rfl rfl (Or.inl rfl) (Or.inl rfl)

end ExcuseApp
